import Mathlib

/-
Verification of the membership-gated prediction bot (prediction.py).

Shallow embedding: MongoDB collections become Lean lists; `update_one`
with `upsert=True` becomes a first-match update (Mongo update_one touches
at most one document) with an insert on miss; the Telegram provider
becomes explicit function parameters; `random.choice` and
`random.randint` become explicit entropy parameters; a raising store call
becomes an `Option String` error parameter threaded through the handler
in program order.  Emoji and decorative characters of the source strings
are omitted; the ASCII payload of each string is kept.
-/

/-- A Telegram user object as the handlers see it (update.effective_user /
query.from_user). -/
structure TgUser where
  id : Nat
  username : Option String
  first_name : String
  last_name : Option String
deriving DecidableEq, Repr

/-- A document of the users collection, with the fields add_user writes. -/
structure UserDoc where
  user_id : Nat
  username : Option String
  first_name : String
  last_name : Option String
  balance : Int
  predictions : Nat
  join_date : Nat
deriving DecidableEq, Repr

/-- A document of the predictions collection, as written by add_prediction. -/
structure PredictionDoc where
  user_id : Nat
  type : String
  result : String
  timestamp : Nat
deriving DecidableEq, Repr

/-- A document of the leaderboard collection, as written by
update_leaderboard. -/
structure LBEntry where
  user_id : Nat
  username : Option String
  score : Int
deriving DecidableEq, Repr

/-- The three MongoDB collections of the bot. -/
structure DB where
  users : List UserDoc
  predictions : List PredictionDoc
  leaderboard : List LBEntry
deriving DecidableEq, Repr

/-- The empty database. -/
def dbInit : DB := ⟨[], [], []⟩

/-- Mongo update_one on the users collection with filter user_id = u.id,
a $set of every field listed in add_user, and upsert=True: the first
matching document is overwritten, a fresh document is inserted when none
matches. -/
def upsertUser (now : Nat) (u : TgUser) : List UserDoc → List UserDoc
  | [] => [⟨u.id, u.username, u.first_name, u.last_name, 0, 0, now⟩]
  | d :: rest =>
    if d.user_id == u.id then
      { d with username := u.username, first_name := u.first_name,
               last_name := u.last_name, balance := 0, predictions := 0,
               join_date := now } :: rest
    else d :: upsertUser now u rest

/-- add_user from prediction.py: upsert of the users collection keyed by
user_id, $set-ting username, first_name, last_name, balance := 0,
predictions := 0 and join_date := now on every call. -/
def add_user (now : Nat) (u : TgUser) (db : DB) : DB :=
  { db with users := upsertUser now u db.users }

/-- add_prediction from prediction.py: insert_one of a prediction record. -/
def add_prediction (uid : Nat) (ptype : String) (result : String) (now : Nat)
    (db : DB) : DB :=
  { db with predictions := db.predictions ++ [⟨uid, ptype, result, now⟩] }

/-- Mongo update_one on the leaderboard with filter user_id = uid,
$set of the username, $inc of the score by pts, upsert=True. -/
def upsertScore (uid : Nat) (un : Option String) (pts : Int) :
    List LBEntry → List LBEntry
  | [] => [⟨uid, un, pts⟩]
  | e :: rest =>
    if e.user_id == uid then
      { e with username := un, score := e.score + pts } :: rest
    else e :: upsertScore uid un pts rest

/-- update_leaderboard from prediction.py. -/
def update_leaderboard (uid : Nat) (un : Option String) (pts : Int)
    (db : DB) : DB :=
  { db with leaderboard := upsertScore uid un pts db.leaderboard }

/-- First-match score lookup on the leaderboard (Mongo find_one order),
0 when absent. -/
def lbScore (uid : Nat) : List LBEntry → Int
  | [] => 0
  | e :: rest => if e.user_id == uid then e.score else lbScore uid rest

/-- Existence of a leaderboard document for a user id. -/
def lbHas (uid : Nat) (lb : List LBEntry) : Bool :=
  lb.any (fun e => e.user_id == uid)

/-- Existence of a prediction record for a user id. -/
def predHas (uid : Nat) (ps : List PredictionDoc) : Bool :=
  ps.any (fun p => p.user_id == uid)

/-- A LeaderboardEntry for the user exists in the database. -/
def hasLBEntry (uid : Nat) (db : DB) : Bool := lbHas uid db.leaderboard

/-- A PredictionRecord for the user exists in the database. -/
def hasPrediction (uid : Nat) (db : DB) : Bool := predHas uid db.predictions

/-- A User row for the id exists in the database. -/
def hasUserRow (uid : Nat) (db : DB) : Bool :=
  db.users.any (fun d => d.user_id == uid)

/-- Membership status values returned by getChatMember. -/
inductive ChatStatus where
  | member
  | administrator
  | creator
  | restricted
  | left
  | kicked
deriving DecidableEq, Repr

/-- The status test of is_user_member: status in
["member", "administrator", "creator"]. -/
def statusAllowed : ChatStatus → Bool
  | ChatStatus.member => true
  | ChatStatus.administrator => true
  | ChatStatus.creator => true
  | _ => false

/-- The loop body of is_user_member for one channel: a successful
getChatMember query checks the status list, a raised error is caught and
yields False (fail closed). -/
def channelOk (q : String → Except String ChatStatus) (ch : String) : Bool :=
  match q ch with
  | Except.ok s => statusAllowed s
  | Except.error _ => false

/-- is_user_member from prediction.py: every configured required channel
must pass the per-channel check. -/
def is_user_member (channels : List String)
    (q : String → Except String ChatStatus) : Bool :=
  channels.all (channelOk q)

/-- An outbound provider operation, as observed by the user. -/
inductive OutMsg where
  | answerCallback
  | syncAnimation
  | joinRequest
  | deleteMessage
  | photo (url : String) (caption : String)
  | text (s : String)
deriving DecidableEq, Repr

/-- Test for the photo constructor. -/
def isPhoto : OutMsg → Bool
  | OutMsg.photo _ _ => true
  | _ => false

/-- Outcome of one handler invocation: the database afterwards, the
provider operations performed before control left the handler, and the
exception (if any) that escaped the handler into the dispatcher. -/
structure RunResult where
  db : DB
  sent : List OutMsg
  error : Option String
deriving DecidableEq, Repr

/-- random.choice on the two colors of handle_color_prediction. -/
def color_name (red : Bool) : String := if red then "RED" else "GREEN"

/-- The color result photo chosen by handle_color_prediction. -/
def color_image (red : Bool) : String :=
  if red then "https://t.me/megahubbots/16" else "https://t.me/megahubbots/15"

/-- random.randint(1, 10) of handle_number_prediction, driven by an
explicit entropy value. -/
def drawNumber (entropy : Nat) : Nat := 1 + entropy % 10

/-- The size label of handle_number_prediction:
SMALL if number <= 4 else BIG. -/
def size_label (n : Nat) : String := if n ≤ 4 then "SMALL" else "BIG"

/-- The number result photo chosen by handle_number_prediction. -/
def number_image (sz : String) : String :=
  if sz = "SMALL" then "https://t.me/megahubbots/13"
  else "https://t.me/megahubbots/14"

/-- handle_color_prediction from prediction.py, in program order:
answer the callback, run the sync animation, draw the color, call
add_prediction then update_leaderboard (insertRes / incRes model a store
exception raised by those calls; the handler has no try around them, so a
raised error aborts the rest of the handler), then delete the animation
message and reply with the result photo.  No membership check occurs
anywhere in this handler. -/
def handle_color_prediction (insertRes incRes : Option String) (uid : Nat)
    (uname : Option String) (red : Bool) (now : Nat) (db : DB) : RunResult :=
  let sent0 := [OutMsg.answerCallback, OutMsg.syncAnimation]
  match insertRes with
  | some e => { db := db, sent := sent0, error := some e }
  | none =>
    let db1 := add_prediction uid "color" (color_name red) now db
    match incRes with
    | some e => { db := db1, sent := sent0, error := some e }
    | none =>
      let db2 := update_leaderboard uid uname 1 db1
      { db := db2,
        sent := sent0 ++ [OutMsg.deleteMessage,
          OutMsg.photo (color_image red)
            ("Color Prediction: " ++ color_name red)],
        error := none }

/-- handle_number_prediction from prediction.py, in program order, with
the same store-error modelling as the color handler.  No membership check
occurs anywhere in this handler. -/
def handle_number_prediction (insertRes incRes : Option String) (uid : Nat)
    (uname : Option String) (entropy : Nat) (now : Nat) (db : DB) : RunResult :=
  let sent0 := [OutMsg.answerCallback, OutMsg.syncAnimation]
  let number := drawNumber entropy
  let sz := size_label number
  match insertRes with
  | some e => { db := db, sent := sent0, error := some e }
  | none =>
    let db1 := add_prediction uid "number"
      (toString number ++ " (" ++ sz ++ ")") now db
    match incRes with
    | some e => { db := db1, sent := sent0, error := some e }
    | none =>
      let db2 := update_leaderboard uid uname 1 db1
      { db := db2,
        sent := sent0 ++ [OutMsg.deleteMessage,
          OutMsg.photo (number_image sz)
            ("Number Prediction: Number: " ++ toString number
              ++ " (" ++ sz ++ ")")],
        error := none }

/-- The database-mutating inbound events of the bot.  start covers the
/start command and the successful verify_membership callback (which
re-enters start); color and number are the two prediction callbacks.
The remaining handlers (howtobet, profile, leaderboard, stats, contactus,
broadcast, a failed verify) only read the store and leave the database
unchanged. -/
inductive Ev where
  | start (now : Nat) (u : TgUser)
  | color (uid : Nat) (uname : Option String) (red : Bool) (now : Nat)
  | number (uid : Nat) (uname : Option String) (entropy : Nat) (now : Nat)
deriving DecidableEq, Repr

/-- The database transition of one event, with succeeding store writes. -/
def stepDB (db : DB) : Ev → DB
  | Ev.start now u => add_user now u db
  | Ev.color uid uname red now =>
      (handle_color_prediction none none uid uname red now db).db
  | Ev.number uid uname entropy now =>
      (handle_number_prediction none none uid uname entropy now db).db

/-- Databases reachable from the empty database through the bot
handlers. -/
inductive Reachable : DB → Prop where
  | init : Reachable dbInit
  | step (e : Ev) {db : DB} (h : Reachable db) : Reachable (stepDB db e)

/-- get_leaderboard sort order: Mongo sort score -1 (non-increasing). -/
def sortInsDesc (e : LBEntry) : List LBEntry → List LBEntry
  | [] => [e]
  | x :: xs => if x.score ≤ e.score then e :: x :: xs else x :: sortInsDesc e xs

/-- A sort of the leaderboard by non-increasing score. -/
def sortByScoreDesc : List LBEntry → List LBEntry
  | [] => []
  | x :: xs => sortInsDesc x (sortByScoreDesc xs)

/-- get_leaderboard from prediction.py: find().sort(score, -1).limit(10). -/
def get_leaderboard (lb : List LBEntry) : List LBEntry :=
  (sortByScoreDesc lb).take 10

/-- Rendering of an Option String by a Python f-string. -/
def usernameText : Option String → String
  | some s => s
  | none => "None"

/-- One line of the leaderboard text:
f-string i. username: score points plus newline. -/
def renderEntry (i : Nat) (e : LBEntry) : String :=
  toString i ++ ". " ++ usernameText e.username ++ ": "
    ++ toString e.score ++ " points\n"

/-- The leaderboard command handler from prediction.py: empty data yields
the fixed no-users reply, otherwise the entries are accumulated with
enumerate(data, 1) into one text reply. -/
def leaderboard (lb : List LBEntry) : List OutMsg :=
  let data := get_leaderboard lb
  if data.isEmpty then [OutMsg.text "No users on the leaderboard yet."]
  else
    [OutMsg.text ((List.enumFrom 1 data).foldl
      (fun acc p => acc ++ renderEntry p.1 p.2) "Top 10 Users:\n\n")]

/-- Spec-side recursive rendering: the entries in order, numbered from i. -/
def renderFrom (i : Nat) : List LBEntry → String
  | [] => ""
  | e :: rest => renderEntry i e ++ renderFrom (i + 1) rest

/-- Result of one broadcast invocation: whether the users collection was
read, the user ids to which a send was attempted, the count of successful
sends, and the final reply text. -/
structure BroadcastResult where
  storeRead : Bool
  attempted : List Nat
  success : Nat
  reply : String
deriving DecidableEq, Repr

/-- broadcast from prediction.py: reject a non-admin caller, then an
empty argument list, before any store access; otherwise read every user
id, attempt one send each (send u = some e models a raised send error,
caught and logged), count the successes and reply with the count. -/
def broadcast (admin caller : Nat) (args : List String)
    (send : Nat → Option String) (db : DB) : BroadcastResult :=
  if caller ≠ admin then
    ⟨false, [], 0, "You do not have permission to use this command."⟩
  else if args = [] then
    ⟨false, [], 0, "Please provide a message to broadcast."⟩
  else
    let uids := db.users.map (fun d => d.user_id)
    let succ := uids.foldl
      (fun acc u => match send u with | none => acc + 1 | some _ => acc) 0
    ⟨true, uids, succ, "Broadcast sent to " ++ toString succ ++ " users."⟩

/-- An HTTP response of the webhook server. -/
structure HttpResp where
  status : Nat
  body : String
deriving DecidableEq, Repr

/-- A 4xx status. -/
def isClientError (st : Nat) : Bool := 400 ≤ st && st < 500

/-- telegram_webhook from prediction.py: the body is parsed into an
internal event (request.json() composed with Update.de_json); the code
has no error handling, so a parse failure raises out of the handler and
aiohttp answers 500 Internal Server Error without reaching the enqueue;
a parsed event is put on the update queue and answered 200 OK. -/
def telegram_webhook (parseUpdate : String → Except String Ev)
    (body : String) (queue : List Ev) : HttpResp × List Ev :=
  match parseUpdate body with
  | Except.error _ => (⟨500, "Internal Server Error"⟩, queue)
  | Except.ok ev => (⟨200, "OK"⟩, queue ++ [ev])

/-- Concrete fixtures used by witnesses and counterexamples. -/
def exChannels : List String := ["Freenethubz", "megahubbots", "Freenethubchannel"]

/-- A provider whose every membership query raises. -/
def exBadQuery : String → Except String ChatStatus :=
  fun _ => Except.error "network"

/-- The database reached by a single color-prediction callback from the
empty database. -/
def exPredDB : DB := stepDB dbInit (Ev.color 7 (some "u") true 0)

/-- A parse function on which the concrete malformed body fails. -/
def exParse : String → Except String Ev :=
  fun _ => Except.error "could not parse"

/-- A three-user database for the broadcast scenario. -/
def db3 : DB :=
  ⟨[⟨1, some "a", "A", none, 0, 0, 0⟩,
    ⟨2, some "b", "B", none, 0, 0, 0⟩,
    ⟨3, some "c", "C", none, 0, 0, 0⟩], [], []⟩

/-- A send that fails exactly for the second user. -/
def send2fail : Nat → Option String :=
  fun u => if u = 2 then some "blocked" else none

-- Helper lemmas about the store operations.

theorem lbScore_upsertScore (uid : Nat) (un : Option String) (pts : Int)
    (lb : List LBEntry) :
    lbScore uid (upsertScore uid un pts lb) = lbScore uid lb + pts := by
  induction lb with
  | nil => simp [upsertScore, lbScore]
  | cons e rest ih =>
    by_cases h : e.user_id = uid
    · simp [upsertScore, lbScore, h]
    · simp [upsertScore, lbScore, h, ih]

theorem lbHas_upsertScore (u uid : Nat) (un : Option String) (pts : Int)
    (lb : List LBEntry) :
    lbHas u (upsertScore uid un pts lb) = (lbHas u lb || uid == u) := by
  induction lb with
  | nil => simp [upsertScore, lbHas]
  | cons e rest ih =>
    by_cases h : e.user_id = uid
    · by_cases hu : uid = u
      · simp [upsertScore, lbHas, h, hu]
      · simp [upsertScore, lbHas, h, hu]
    · have hne : (e.user_id == uid) = false := by simp [h]
      simp only [upsertScore, hne, Bool.false_eq_true, if_false]
      simp only [lbHas, List.any_cons] at ih ⊢
      rw [ih, Bool.or_assoc]

theorem predHas_append_single (u uid : Nat) (t r : String) (now : Nat)
    (ps : List PredictionDoc) :
    predHas u (ps ++ [⟨uid, t, r, now⟩]) = (predHas u ps || uid == u) := by
  simp [predHas, List.any_append, Bool.or_comm, eq_comm]

theorem countFold_eq_filter_length (send : Nat → Option String)
    (l : List Nat) (acc : Nat) :
    l.foldl (fun a u => match send u with | none => a + 1 | some _ => a) acc
      = acc + (l.filter (fun u => (send u).isNone)).length := by
  induction l generalizing acc with
  | nil => simp
  | cons u rest ih =>
    cases hs : send u with
    | none =>
      simp only [List.foldl_cons, hs, List.filter_cons]
      rw [ih]
      simp [hs]
      rw [Nat.add_assoc, Nat.add_comm 1]
    | some err =>
      simp only [List.foldl_cons, hs, List.filter_cons]
      rw [ih]
      simp [hs]

theorem strAppend_assoc (a b c : String) : a ++ b ++ c = a ++ (b ++ c) := by
  cases a with | mk da =>
  cases b with | mk db =>
  cases c with | mk dc =>
  show String.mk (da ++ db ++ dc) = String.mk (da ++ (db ++ dc))
  rw [List.append_assoc]

theorem strAppend_empty (a : String) : a ++ "" = a := by
  cases a with | mk da =>
  show String.mk (da ++ []) = String.mk da
  rw [List.append_nil]

theorem mem_sortInsDesc (y e : LBEntry) (l : List LBEntry) :
    y ∈ sortInsDesc e l ↔ y = e ∨ y ∈ l := by
  induction l with
  | nil => simp [sortInsDesc]
  | cons x xs ih =>
    by_cases h : x.score ≤ e.score
    · simp [sortInsDesc, h]
    · simp only [sortInsDesc, if_neg h, List.mem_cons, ih]
      tauto

theorem pairwise_sortInsDesc (e : LBEntry) (l : List LBEntry)
    (h : List.Pairwise (fun a b => b.score ≤ a.score) l) :
    List.Pairwise (fun a b => b.score ≤ a.score) (sortInsDesc e l) := by
  induction l with
  | nil => simp [sortInsDesc]
  | cons x xs ih =>
    rcases List.pairwise_cons.mp h with ⟨hx, hxs⟩
    by_cases hc : x.score ≤ e.score
    · rw [sortInsDesc, if_pos hc]
      refine List.pairwise_cons.mpr ⟨?_, h⟩
      intro y hy
      rcases List.mem_cons.mp hy with rfl | hmem
      · exact hc
      · exact le_trans (hx y hmem) hc
    · rw [sortInsDesc, if_neg hc]
      refine List.pairwise_cons.mpr ⟨?_, ih hxs⟩
      intro y hy
      rcases (mem_sortInsDesc y e xs).mp hy with rfl | hmem
      · exact le_of_not_le hc
      · exact hx y hmem

theorem pairwise_sortByScoreDesc (l : List LBEntry) :
    List.Pairwise (fun a b => b.score ≤ a.score) (sortByScoreDesc l) := by
  induction l with
  | nil => simp [sortByScoreDesc]
  | cons x xs ih => exact pairwise_sortInsDesc x _ ih

theorem foldl_renderFrom (l : List LBEntry) (i : Nat) (acc : String) :
    (List.enumFrom i l).foldl (fun a p => a ++ renderEntry p.1 p.2) acc
      = acc ++ renderFrom i l := by
  induction l generalizing i acc with
  | nil => simp [renderFrom, List.enumFrom, strAppend_empty]
  | cons e rest ih =>
    simp only [List.enumFrom, List.foldl_cons, renderFrom]
    rw [ih, strAppend_assoc]

-- Claim theorems.

/-- C2: is_user_member returns true iff every configured required channel
reports a status in the set member, administrator, creator; an erroring
query on any single channel makes the gate return false, regardless of
the other channels (fail closed). -/
theorem C2_membership_gate (channels : List String)
    (q : String → Except String ChatStatus) :
    (is_user_member channels q = true ↔
       ∀ ch ∈ channels, ∃ s, q ch = Except.ok s ∧ statusAllowed s = true)
  ∧ (∀ ch ∈ channels, ∀ e, q ch = Except.error e →
       is_user_member channels q = false) := by
  have hiff : ∀ ch, channelOk q ch = true ↔
      ∃ s, q ch = Except.ok s ∧ statusAllowed s = true := by
    intro ch
    unfold channelOk
    cases hq : q ch with
    | ok s => simp
    | error e => simp
  constructor
  · rw [is_user_member, List.all_eq_true]
    constructor
    · intro h ch hch
      exact (hiff ch).mp (h ch hch)
    · intro h ch hch
      exact (hiff ch).mpr (h ch hch)
  · intro ch hch e he
    cases hmem : is_user_member channels q with
    | false => rfl
    | true =>
      exfalso
      have h1 : channelOk q ch = true := List.all_eq_true.mp hmem ch hch
      rcases (hiff ch).mp h1 with ⟨s, hs, _⟩
      rw [he] at hs
      simp at hs

/-- C2 witness: with every query raising, the gate is false. -/
theorem C2_membership_gate_witness :
    is_user_member exChannels exBadQuery = false :=
  (C2_membership_gate exChannels exBadQuery).2 "Freenethubz" (by decide)
    "network" rfl

/-- C3: a completed prediction (both store writes succeed) appends exactly
one PredictionRecord for the triggering user and raises the
leaderboard score by exactly 1, via the single-increment upsert, for the
color and the number handler alike and for any drawn outcome. -/
theorem C3_one_record_one_point (uid : Nat) (uname : Option String)
    (red : Bool) (entropy now : Nat) (db : DB) :
    ((handle_color_prediction none none uid uname red now db).db.predictions
        = db.predictions ++ [⟨uid, "color", color_name red, now⟩]
      ∧ lbScore uid
          (handle_color_prediction none none uid uname red now db).db.leaderboard
        = lbScore uid db.leaderboard + 1)
  ∧ ((handle_number_prediction none none uid uname entropy now db).db.predictions
        = db.predictions ++ [⟨uid, "number", toString (drawNumber entropy)
            ++ " (" ++ size_label (drawNumber entropy) ++ ")", now⟩]
      ∧ lbScore uid
          (handle_number_prediction none none uid uname entropy now db).db.leaderboard
        = lbScore uid db.leaderboard + 1) := by
  refine ⟨⟨rfl, ?_⟩, rfl, ?_⟩
  · exact lbScore_upsertScore uid uname 1 db.leaderboard
  · exact lbScore_upsertScore uid uname 1 db.leaderboard

/-- Fixture users for the add_user claim. -/
def uAlpha : TgUser := ⟨7, some "alpha", "Alpha", none⟩

/-- Second fixture user with the same id and another display name. -/
def uBeta : TgUser := ⟨7, some "beta", "Beta", none⟩

/-- C5 (code bug): two add_user calls for the same id keep one record with
the latest display name, but the unconditional field overwrite also
replaces the join timestamp (and re-sets the balance to 0): after calls
at times 1 and 2 the stored join_date is 2, not the first-call value 1,
contradicting the add_user docstring (add only if not exists). -/
theorem C5_join_date_overwritten :
    (add_user 1 uAlpha dbInit).users
      = [⟨7, some "alpha", "Alpha", none, 0, 0, 1⟩]
  ∧ (add_user 2 uBeta (add_user 1 uAlpha dbInit)).users
      = [⟨7, some "beta", "Beta", none, 0, 0, 2⟩]
  ∧ ((add_user 2 uBeta (add_user 1 uAlpha dbInit)).users.map
        (fun d => d.join_date)) ≠ [1] :=
  ⟨by decide, by decide, by decide⟩

/-- C8: every drawn number lies in 1..10; the size label is SMALL exactly
on 1..4 and BIG exactly on 5..10, no third label occurs, and the boundary
is the fixed constant 4 of size_label, independent of configuration. -/
theorem C8_number_size (entropy : Nat) :
    (1 ≤ drawNumber entropy ∧ drawNumber entropy ≤ 10)
  ∧ (size_label (drawNumber entropy) = "SMALL" ↔
       1 ≤ drawNumber entropy ∧ drawNumber entropy ≤ 4)
  ∧ (size_label (drawNumber entropy) = "BIG" ↔
       5 ≤ drawNumber entropy ∧ drawNumber entropy ≤ 10)
  ∧ (size_label (drawNumber entropy) = "SMALL" ∨
       size_label (drawNumber entropy) = "BIG") := by
  have hm : entropy % 10 < 10 := Nat.mod_lt _ (by decide)
  unfold drawNumber size_label
  by_cases h : 1 + entropy % 10 ≤ 4
  · rw [if_pos h]
    refine ⟨⟨by omega, by omega⟩, ?_, ?_, Or.inl rfl⟩
    · simp only [true_iff]
      omega
    · constructor
      · intro hs
        exact absurd hs (by decide)
      · intro hand
        omega
  · rw [if_neg h]
    refine ⟨⟨by omega, by omega⟩, ?_, ?_, Or.inr rfl⟩
    · constructor
      · intro hs
        exact absurd hs (by decide)
      · intro hand
        omega
    · simp only [true_iff]
      omega

/-- C1 counterexample: a user for whom the membership gate fails (every
channel query raises) still gets a full color prediction from the
callback handler: a PredictionRecord is written, the leaderboard gains an
entry, the result photo is delivered, and no join-request is sent.  The
prediction handlers never consult the gate. -/
theorem C1_counterexample :
    is_user_member exChannels exBadQuery = false
  ∧ (handle_color_prediction none none 7 (some "u") true 0 dbInit).db.predictions.length = 1
  ∧ hasLBEntry 7 (handle_color_prediction none none 7 (some "u") true 0 dbInit).db = true
  ∧ OutMsg.joinRequest ∉ (handle_color_prediction none none 7 (some "u") true 0 dbInit).sent
  ∧ OutMsg.photo (color_image true) ("Color Prediction: " ++ color_name true)
      ∈ (handle_color_prediction none none 7 (some "u") true 0 dbInit).sent :=
  ⟨rfl, rfl, by decide, by decide, by decide⟩

/-- C1 (amended): the two prediction-start callback handlers perform no
membership check at all: for every input they emit no join-request,
append one PredictionRecord, and deliver the result photo, whatever any
gate query would return. -/
theorem C1_no_gate_in_handlers (uid : Nat) (uname : Option String)
    (red : Bool) (entropy now : Nat) (db : DB) :
    (OutMsg.joinRequest ∉ (handle_color_prediction none none uid uname red now db).sent
      ∧ (handle_color_prediction none none uid uname red now db).db.predictions.length
          = db.predictions.length + 1
      ∧ OutMsg.photo (color_image red) ("Color Prediction: " ++ color_name red)
          ∈ (handle_color_prediction none none uid uname red now db).sent)
  ∧ (OutMsg.joinRequest ∉ (handle_number_prediction none none uid uname entropy now db).sent
      ∧ (handle_number_prediction none none uid uname entropy now db).db.predictions.length
          = db.predictions.length + 1
      ∧ OutMsg.photo (number_image (size_label (drawNumber entropy)))
            ("Number Prediction: Number: " ++ toString (drawNumber entropy)
              ++ " (" ++ size_label (drawNumber entropy) ++ ")")
          ∈ (handle_number_prediction none none uid uname entropy now db).sent) := by
  refine ⟨⟨?_, ?_, ?_⟩, ?_, ?_, ?_⟩
  · simp [handle_color_prediction, add_prediction, update_leaderboard]
  · simp [handle_color_prediction, add_prediction, update_leaderboard]
  · simp [handle_color_prediction, add_prediction, update_leaderboard]
  · simp [handle_number_prediction, add_prediction, update_leaderboard]
  · simp [handle_number_prediction, add_prediction, update_leaderboard]
  · simp [handle_number_prediction, add_prediction, update_leaderboard]

/-- C6 counterexample: when the PredictionRecord insert raises, the color
handler stops after the animation: the animation message is not deleted,
no photo of any kind is delivered, and the exception escapes the handler
into the dispatcher. -/
theorem C6_counterexample :
    (handle_color_prediction (some "disk full") none 7 (some "u") true 0 dbInit).sent
      = [OutMsg.answerCallback, OutMsg.syncAnimation]
  ∧ ((handle_color_prediction (some "disk full") none 7 (some "u") true 0 dbInit).sent.all
      (fun m => ! isPhoto m)) = true
  ∧ (handle_color_prediction (some "disk full") none 7 (some "u") true 0 dbInit).error
      = some "disk full" :=
  ⟨rfl, by decide, rfl⟩

/-- C6 (amended): a raising store write (record insert or leaderboard
increment) aborts the rest of the handler: only the callback
acknowledgement and the animation have been sent, the result photo is
never delivered, and the exception propagates out of the handler (the
dispatcher, not the handler, absorbs it).  Delivery of the outcome is
therefore blocked by a persistence failure, for both handlers. -/
theorem C6_store_failure_blocks_delivery (e : String) (uid : Nat)
    (uname : Option String) (red : Bool) (entropy now : Nat) (db : DB) :
    ((handle_color_prediction (some e) none uid uname red now db).sent
        = [OutMsg.answerCallback, OutMsg.syncAnimation]
      ∧ (handle_color_prediction (some e) none uid uname red now db).error = some e
      ∧ (handle_color_prediction none (some e) uid uname red now db).sent
        = [OutMsg.answerCallback, OutMsg.syncAnimation]
      ∧ (handle_color_prediction none (some e) uid uname red now db).error = some e)
  ∧ ((handle_number_prediction (some e) none uid uname entropy now db).sent
        = [OutMsg.answerCallback, OutMsg.syncAnimation]
      ∧ (handle_number_prediction (some e) none uid uname entropy now db).error = some e
      ∧ (handle_number_prediction none (some e) uid uname entropy now db).sent
        = [OutMsg.answerCallback, OutMsg.syncAnimation]
      ∧ (handle_number_prediction none (some e) uid uname entropy now db).error = some e) :=
  ⟨⟨rfl, rfl, rfl, rfl⟩, rfl, rfl, rfl, rfl⟩

/-- C7: broadcast rejects a non-admin caller, and an empty argument list,
before reading the store or sending anything; otherwise it reads every
known user id, attempts one send each, and reports exactly the number of
sends that did not fail — a failing recipient is skipped, never aborting
the loop (the embedding is total, so no exception escapes). -/
theorem C7_broadcast_spec (admin caller : Nat) (args : List String)
    (send : Nat → Option String) (db : DB) :
    (caller ≠ admin →
       broadcast admin caller args send db
         = ⟨false, [], 0, "You do not have permission to use this command."⟩)
  ∧ (caller = admin → args = [] →
       broadcast admin caller args send db
         = ⟨false, [], 0, "Please provide a message to broadcast."⟩)
  ∧ (caller = admin → args ≠ [] →
       (broadcast admin caller args send db).storeRead = true
       ∧ (broadcast admin caller args send db).attempted
           = db.users.map (fun d => d.user_id)
       ∧ (broadcast admin caller args send db).success
           = ((db.users.map (fun d => d.user_id)).filter
                (fun u => (send u).isNone)).length) := by
  refine ⟨?_, ?_, ?_⟩
  · intro hne
    rw [broadcast, if_pos hne]
  · intro heq hargs
    rw [broadcast, if_neg (by simp [heq]), if_pos hargs]
  · intro heq hargs
    rw [broadcast, if_neg (by simp [heq]), if_neg hargs]
    refine ⟨rfl, rfl, ?_⟩
    show (db.users.map (fun d => d.user_id)).foldl
        (fun acc u => match send u with | none => acc + 1 | some _ => acc) 0
      = ((db.users.map (fun d => d.user_id)).filter
          (fun u => (send u).isNone)).length
    rw [countFold_eq_filter_length]
    exact Nat.zero_add _

/-- C7 witness: broadcasting to three known users with the second send
failing reports exactly two successful sends. -/
theorem C7_broadcast_spec_witness :
    (broadcast 99 99 ["hello"] send2fail db3).success = 2 := by
  have h := ((C7_broadcast_spec 99 99 ["hello"] send2fail db3).2.2 rfl
    (by decide)).2.2
  rw [h]
  decide

/-- C9 counterexample: a malformed webhook body makes the endpoint answer
HTTP 500 — a server error, not a client-error status — while the inbound
queue is left unchanged. -/
theorem C9_counterexample :
    (telegram_webhook exParse "not json" []).1.status = 500
  ∧ isClientError (telegram_webhook exParse "not json" []).1.status = false
  ∧ (telegram_webhook exParse "not json" []).2 = [] :=
  ⟨by decide, by decide, by decide⟩

/-- C9 (amended): on any body whose parse fails, the webhook endpoint
responds with the server-error status 500 (the unhandled parse exception
reaches the HTTP layer) rather than a client-error status, and performs
no enqueue: the inbound queue is unchanged. -/
theorem C9_parse_failure_no_enqueue
    (parseUpdate : String → Except String Ev) (body : String)
    (queue : List Ev) (e : String) (h : parseUpdate body = Except.error e) :
    (telegram_webhook parseUpdate body queue).1.status = 500
  ∧ isClientError (telegram_webhook parseUpdate body queue).1.status = false
  ∧ (telegram_webhook parseUpdate body queue).2 = queue := by
  rw [telegram_webhook]
  rw [h]
  exact ⟨rfl, rfl, rfl⟩

/-- C9 witness: the amended statement at the concrete malformed body. -/
theorem C9_parse_failure_no_enqueue_witness :
    (telegram_webhook exParse "not json" []).1.status = 500
  ∧ isClientError (telegram_webhook exParse "not json" []).1.status = false
  ∧ (telegram_webhook exParse "not json" []).2 = [] :=
  C9_parse_failure_no_enqueue exParse "not json" [] "could not parse" rfl

/-- C4 (amended): in every database reachable through the handlers, a
LeaderboardEntry for a user exists iff a PredictionRecord for that user
exists.  The claimed User-row precedence does not hold: see the
counterexample. -/
theorem C4_lb_iff_prediction (db : DB) (h : Reachable db) (u : Nat) :
    hasLBEntry u db = hasPrediction u db := by
  induction h with
  | init => rfl
  | step e h ih =>
    rename_i db2
    cases e with
    | start now tu => exact ih
    | color uid uname red now =>
      have hl : hasLBEntry u (stepDB db2 (Ev.color uid uname red now))
          = (hasLBEntry u db2 || uid == u) :=
        lbHas_upsertScore u uid uname 1 db2.leaderboard
      have hp : hasPrediction u (stepDB db2 (Ev.color uid uname red now))
          = (hasPrediction u db2 || uid == u) :=
        predHas_append_single u uid "color" (color_name red) now db2.predictions
      rw [hl, hp, ih]
    | number uid uname entropy now =>
      have hl : hasLBEntry u (stepDB db2 (Ev.number uid uname entropy now))
          = (hasLBEntry u db2 || uid == u) :=
        lbHas_upsertScore u uid uname 1 db2.leaderboard
      have hp : hasPrediction u (stepDB db2 (Ev.number uid uname entropy now))
          = (hasPrediction u db2 || uid == u) :=
        predHas_append_single u uid "number"
          (toString (drawNumber entropy) ++ " ("
            ++ size_label (drawNumber entropy) ++ ")") now db2.predictions
      rw [hl, hp, ih]

/-- C4 counterexample: one color-prediction callback from the empty
database yields a reachable state holding a PredictionRecord and a
LeaderboardEntry for user 7 with no User row for 7: the prediction
handlers never upsert the User row, so no User row precedes the first
activity of a user who never ran the start command. -/
theorem C4_counterexample :
    Reachable exPredDB
  ∧ hasPrediction 7 exPredDB = true
  ∧ hasLBEntry 7 exPredDB = true
  ∧ hasUserRow 7 exPredDB = false :=
  ⟨Reachable.step (Ev.color 7 (some "u") true 0) Reachable.init,
    by decide, by decide, by decide⟩

/-- C4 witness: the iff evaluated at the concrete reachable state. -/
theorem C4_lb_iff_prediction_witness :
    hasLBEntry 7 exPredDB = hasPrediction 7 exPredDB :=
  C4_lb_iff_prediction exPredDB
    (Reachable.step (Ev.color 7 (some "u") true 0) Reachable.init) 7

/-- C10: get_leaderboard returns at most 10 entries in non-increasing
score order; the leaderboard command replies with the fixed no-users
message when the result is empty, and otherwise with one text listing
exactly those entries, in order, numbered from 1. -/
theorem C10_leaderboard_top10 (lb : List LBEntry) :
    (get_leaderboard lb).length ≤ 10
  ∧ List.Pairwise (fun a b => b.score ≤ a.score) (get_leaderboard lb)
  ∧ (get_leaderboard lb = [] →
       leaderboard lb = [OutMsg.text "No users on the leaderboard yet."])
  ∧ (get_leaderboard lb ≠ [] →
       leaderboard lb = [OutMsg.text ("Top 10 Users:\n\n"
         ++ renderFrom 1 (get_leaderboard lb))]) := by
  refine ⟨?_, ?_, ?_, ?_⟩
  · exact List.length_take_le 10 _
  · exact List.Pairwise.sublist (List.take_sublist 10 _)
      (pairwise_sortByScoreDesc lb)
  · intro hempty
    simp [leaderboard, hempty]
  · intro hne
    have hf : (get_leaderboard lb).isEmpty = false := by
      cases hgl : get_leaderboard lb with
      | nil => exact absurd hgl hne
      | cons a l => rfl
    simp only [leaderboard, hf, Bool.false_eq_true, if_false]
    rw [foldl_renderFrom]

/-- Fixture leaderboard with two entries, out of order. -/
def exLB : List LBEntry := [⟨1, some "a", 5⟩, ⟨2, some "b", 9⟩]

/-- C10 witness: the concrete rendering of a two-entry leaderboard. -/
theorem C10_leaderboard_top10_witness :
    leaderboard exLB
      = [OutMsg.text "Top 10 Users:\n\n1. b: 9 points\n2. a: 5 points\n"] := by
  have h := (C10_leaderboard_top10 exLB).2.2.2 (by decide)
  rw [h]
  decide
